import Mathlib

/-!
Shallow embedding of the OrthoPerspectiveCamera component of the
engine_components repository, together with proofs about its behavior.

The embedded operations are the methods of the OrthoPerspectiveCamera
class: the `mode` getter, `set` (mode switching), `fit`, `setUserInput`
together with its private helpers `disableUserInput` and
`enableUserInput`, the `onWorldChanged` handler installed in the
constructor, and the private `setOrthoCameraAspect`.

JavaScript numbers are modelled as rationals (the inputs exercised here
are exactly representable doubles and no rounding occurs in the traced
computations), except for the orthographic-frustum synchronization,
whose `Math.atan` call forces real numbers.  Exceptions are modelled by
an explicit error component in the result; side effects on the
navigation-mode objects (their `set` calls) are modelled by an explicit
call log, and the call to `controls.fitToSphere` is modelled by an
`Option Sphere` result (`none` meaning the controller was never
invoked).
-/

namespace EngineComponents

/-- Error taxonomy of the facade: the error thrown by the `mode` getter
("Mode not found, camera not initialized") and the error thrown by `set`
("The specified mode does not exist!"). -/
inductive CamError where
  | notInitialized
  | unknownMode
deriving DecidableEq

/-- A NavigationMode instance, identified by its stable id string
("Orbit", "FirstPerson" or "Plan" for the instances the facade builds;
the `set` method receives an arbitrary string at runtime). -/
structure Mode where
  id : String
deriving DecidableEq

/-- One call to a NavigationMode instance, `m.set(active, options)`:
the id of the receiver, the `active` flag, and whether the options
carried `preventTargetAdjustment: true`. -/
inductive ModeCall where
  | set (id : String) (active : Bool) (preventTargetAdjustment : Bool)
deriving DecidableEq

/-- The four pointer-button binding codes of `controls.mouseButtons`. -/
structure MouseButtons where
  left : Int
  right : Int
  middle : Int
  wheel : Int
deriving DecidableEq

/-- The mutable state of an OrthoPerspectiveCamera that the verified
operations read and write: the current mode reference `_mode`, the
`_navigationModes` registry, the pointer-button bindings of the shared
controls object, the `_userInputButtons` snapshot (`none` models the
initial empty object `\x7b\x7d`), and the inherited `enabled` flag of the
component. -/
structure CameraState where
  _mode : Option Mode
  registry : List Mode
  mouseButtons : MouseButtons
  snapshot : Option MouseButtons
  enabled : Bool
deriving DecidableEq

namespace OrthoPerspectiveCamera

/-- The `mode` getter: throws when `_mode` is still null. -/
def mode (s : CameraState) : Except CamError Mode :=
  match s._mode with
  | none => Except.error CamError.notInitialized
  | some m => Except.ok m

/-- Result of running the `set` method: the error thrown (if any), the
state after the call, and the `NavigationMode.set` calls performed, in
order.  Side effects performed before a throw persist. -/
structure SetResult where
  err : Option CamError
  state : CameraState
  calls : List ModeCall
deriving DecidableEq

/-- The `set(mode)` method.  Reading `this.mode` uses the getter, which
throws when `_mode` is null, so the `if (this.mode === null) return`
guard of the source can never take its `return`: an uninitialized camera
throws `notInitialized` instead.  When the requested id equals the
current id the call is a no-op.  Otherwise the current mode is
deactivated with `set(false)` BEFORE the registry membership check, so
an unknown id throws `unknownMode` with the deactivation already
performed; on a known id the new mode is stored and activated with
`set(true)` and no options. -/
def set (s : CameraState) (m : String) : SetResult :=
  match s._mode with
  | none => ⟨some CamError.notInitialized, s, []⟩
  | some cur =>
    if cur.id = m then ⟨none, s, []⟩
    else
      match s.registry.find? (fun md => md.id == m) with
      | none => ⟨some CamError.unknownMode, s, [ModeCall.set cur.id false false]⟩
      | some next =>
          ⟨none, { s with _mode := some next },
           [ModeCall.set cur.id false false, ModeCall.set next.id true false]⟩

/-- The handler the constructor registers on `onWorldChanged`: clears
the registry, registers fresh Orbit, FirstPerson and Plan instances,
makes Orbit the current mode and activates it with
`preventTargetAdjustment: true`.  Returns the new state and the
`NavigationMode.set` calls performed. -/
def onWorldChanged (s : CameraState) : CameraState × List ModeCall :=
  let registry := [Mode.mk "Orbit", Mode.mk "FirstPerson", Mode.mk "Plan"]
  ({ s with registry := registry, _mode := some (Mode.mk "Orbit") },
   [ModeCall.set "Orbit" true true])

/-- The private `disableUserInput`: copies the four button bindings into
the `_userInputButtons` snapshot, then zeroes all four bindings. -/
def disableUserInput (s : CameraState) : CameraState :=
  { s with snapshot := some s.mouseButtons,
           mouseButtons := ⟨0, 0, 0, 0⟩ }

/-- The private `enableUserInput`: a no-op while `_userInputButtons` is
still the empty object, otherwise restores the four captured binding
codes. -/
def enableUserInput (s : CameraState) : CameraState :=
  match s.snapshot with
  | none => s
  | some b => { s with mouseButtons := b }

/-- The public `setUserInput(active)` dispatcher. -/
def setUserInput (s : CameraState) (active : Bool) : CameraState :=
  if active then enableUserInput s else disableUserInput s

end OrthoPerspectiveCamera

/-- A three-component vector over the rationals, modelling THREE.Vector3
for the exactly-representable inputs traced here. -/
structure Vec3 where
  x : ℚ
  y : ℚ
  z : ℚ
deriving DecidableEq

/-- An axis-aligned box, modelling THREE.Box3. -/
structure Box3 where
  min : Vec3
  max : Vec3
deriving DecidableEq

/-- A mesh is modelled by its world axis-aligned bounding box, the only
datum `fit` reads from it (via `new THREE.Box3().setFromObject(mesh)`). -/
abbrev Mesh := Box3

/-- A bounding sphere, modelling THREE.Sphere. -/
structure Sphere where
  center : Vec3
  radius : ℚ
deriving DecidableEq

/-- The exact value of the double `Number.MAX_VALUE`. -/
def maxNum : ℚ := (2 ^ 53 - 1) * 2 ^ 971

/-- The exact value of the double `Number.MIN_VALUE`: the smallest
POSITIVE double, 2 to the power -1074. -/
def minNum : ℚ := 1 / 2 ^ 1074

/-- Emptiness test of THREE.Box3 (three.js semantics): a box is empty
when max is below min in some coordinate. -/
def Box3.isEmpty (b : Box3) : Bool :=
  b.max.x < b.min.x || b.max.y < b.min.y || b.max.z < b.min.z

/-- THREE.Box3.getSize (three.js semantics): zero for an empty box,
otherwise max minus min componentwise. -/
def Box3.getSize (b : Box3) : Vec3 :=
  if b.isEmpty then ⟨0, 0, 0⟩
  else ⟨b.max.x - b.min.x, b.max.y - b.min.y, b.max.z - b.min.z⟩

/-- THREE.Box3.getCenter (three.js semantics): zero for an empty box,
otherwise the midpoint of min and max. -/
def Box3.getCenter (b : Box3) : Vec3 :=
  if b.isEmpty then ⟨0, 0, 0⟩
  else ⟨(b.min.x + b.max.x) / 2, (b.min.y + b.max.y) / 2, (b.min.z + b.max.z) / 2⟩

namespace OrthoPerspectiveCamera

/-- The running min/max fold of the `for (const mesh of meshes)` loop of
`fit`: `min` starts at `(MAX_VALUE, MAX_VALUE, MAX_VALUE)` and `max` at
`(MIN_VALUE, MIN_VALUE, MIN_VALUE)`, and each bounding box lowers `min`
and raises `max` componentwise. -/
def foldBox (meshes : List Mesh) : Box3 :=
  meshes.foldl
    (fun acc b =>
      ⟨⟨if b.min.x < acc.min.x then b.min.x else acc.min.x,
        if b.min.y < acc.min.y then b.min.y else acc.min.y,
        if b.min.z < acc.min.z then b.min.z else acc.min.z⟩,
       ⟨if b.max.x > acc.max.x then b.max.x else acc.max.x,
        if b.max.y > acc.max.y then b.max.y else acc.max.y,
        if b.max.z > acc.max.z then b.max.z else acc.max.z⟩⟩)
    ⟨⟨maxNum, maxNum, maxNum⟩, ⟨minNum, minNum, minNum⟩⟩

/-- The `fit(meshes, offset)` method.  Returns `none` when the method
returns without calling the controller (the `if (!this.enabled) return`
guard), and otherwise `some sphere` where `sphere` is the argument of
the single `controls.fitToSphere(sphere, true)` call: center is the box
center and radius is `Math.max(size.x, size.y, size.z) * offset`. -/
def fit (s : CameraState) (meshes : List Mesh) (offset : ℚ) : Option Sphere :=
  if !s.enabled then none
  else
    let box := foldBox meshes
    let sceneSize := box.getSize
    let sceneCenter := box.getCenter
    let radius := max sceneSize.x (max sceneSize.y sceneSize.z) * offset
    some ⟨sceneCenter, radius⟩

end OrthoPerspectiveCamera

/-- A three-component real vector, for the orthographic-frustum
computation whose `Math.atan` call leaves the rationals. -/
structure Vec3R where
  x : ℝ
  y : ℝ
  z : ℝ

/-- Componentwise subtraction, modelling `Vector3.sub`. -/
noncomputable def Vec3R.sub (a b : Vec3R) : Vec3R :=
  ⟨a.x - b.x, a.y - b.y, a.z - b.z⟩

/-- Dot product, modelling `Vector3.dot`. -/
noncomputable def Vec3R.dot (a b : Vec3R) : ℝ :=
  a.x * b.x + a.y * b.y + a.z * b.z

/-- The left/right/top/bottom extents and zoom of the orthographic
camera written by `setOrthoCameraAspect`. -/
structure OrthoFrustum where
  left : ℝ
  right : ℝ
  top : ℝ
  bottom : ℝ
  zoom : ℝ

namespace OrthoPerspectiveCamera

/-- The world-space height computed by `setOrthoCameraAspect`:
`depth * 2 * Math.atan((camera.fov * (Math.PI / 180)) / 2)`.  Note the
source calls `Math.atan` (arctangent), not `Math.tan`. -/
noncomputable def orthoHeight (fov depth : ℝ) : ℝ :=
  depth * 2 * Real.arctan (fov * (Real.pi / 180) / 2)

/-- Modelled from the spec: the height formula the specification states
for the orthographic-frustum synchronization,
`height = depth * 2 * tan(fov / 2)` with the field of view converted to
radians.  Kept separate from `orthoHeight`, the formula of the source,
to compare the two. -/
noncomputable def specOrthoHeight (fov depth : ℝ) : ℝ :=
  depth * 2 * Real.tan (fov * (Real.pi / 180) / 2)

/-- The private `setOrthoCameraAspect`, after its world/renderer guard:
given the perspective field of view in degrees, the perspective position,
the controls target, the perspective forward direction (from
`getWorldDirection`) and the viewport aspect, computes
`depth = (target - position) . lineOfSight`, the height via `Math.atan`,
`width = height * aspect`, and writes the four extents symmetrically
around zero with zoom reset to 1. -/
noncomputable def setOrthoCameraAspect (fov : ℝ) (position target lineOfSight : Vec3R)
    (aspect : ℝ) : OrthoFrustum :=
  let distance := target.sub position
  let depth := distance.dot lineOfSight
  let height := orthoHeight fov depth
  let width := height * aspect
  ⟨-(width / 2), width / 2, height / 2, -(height / 2), 1⟩

end OrthoPerspectiveCamera

/-- A camera state as it is right after construction and before any
world-bind event: `_mode` null, empty registry, empty snapshot object,
component enabled; the pointer bindings carry the sample codes 1, 2, 4
and 8 used by the specification. -/
def initialState : CameraState :=
  ⟨none, [], ⟨1, 2, 4, 8⟩, none, true⟩

/-- The state obtained from `initialState` by one world-change event. -/
def worldBoundState : CameraState :=
  (OrthoPerspectiveCamera.onWorldChanged initialState).1

/-- A camera state whose inherited `enabled` flag is false. -/
def disabledState : CameraState :=
  ⟨none, [], ⟨1, 2, 4, 8⟩, none, false⟩

/-- A mesh whose bounding box lies entirely below the origin. -/
def negMesh : Mesh := ⟨⟨-2, -2, -2⟩, ⟨-1, -1, -1⟩⟩

/-- The unit-box mesh. -/
def unitMesh : Mesh := ⟨⟨0, 0, 0⟩, ⟨1, 1, 1⟩⟩

open OrthoPerspectiveCamera

/-- C1: at perspective FOV 50 degrees, position at the origin, target
(0, 0, -10) and forward direction (0, 0, -1) (hence depth 10), the
frustum written by `setOrthoCameraAspect` has top equal to half the
height the code computes, and that height is strictly below the height
`depth * 2 * tan(fov / 2)` demanded by the specification: the source
calls `Math.atan` where the specified reprojection requires `Math.tan`,
so the claimed formula (and its numeric instance, height about 9.33) is
not what the code computes. -/
theorem setOrthoCameraAspect_height_below_spec :
    (setOrthoCameraAspect 50 ⟨0, 0, 0⟩ ⟨0, 0, -10⟩ ⟨0, 0, -1⟩ (3 / 2)).top
        = orthoHeight 50 10 / 2 ∧
      orthoHeight 50 10 < specOrthoHeight 50 10 := by
  constructor
  · simp [setOrthoCameraAspect, Vec3R.sub, Vec3R.dot]
  · have hy : (0 : ℝ) < 50 * (Real.pi / 180) / 2 := by positivity
    have hy2 : 50 * (Real.pi / 180) / 2 < Real.pi / 2 := by
      have h := Real.pi_pos
      nlinarith
    have harcpos : 0 < Real.arctan (50 * (Real.pi / 180) / 2) := by
      have h := Real.arctan_strictMono hy
      rwa [Real.arctan_zero] at h
    have h1 : Real.arctan (50 * (Real.pi / 180) / 2) < 50 * (Real.pi / 180) / 2 := by
      have ht := Real.lt_tan harcpos (Real.arctan_lt_pi_div_two _)
      rwa [Real.tan_arctan] at ht
    have h2 : 50 * (Real.pi / 180) / 2 < Real.tan (50 * (Real.pi / 180) / 2) :=
      Real.lt_tan hy hy2
    have h3 := h1.trans h2
    unfold orthoHeight specOrthoHeight
    nlinarith [h3]

/-- C2, counterexample: switching the world-bound camera (current mode
Orbit) to the absent id "Nonexistent" does raise the unknown-mode error,
but the claim that no `NavigationMode.set` call has been performed is
false: the call list is nonempty (the current mode was deactivated
before the registry check). -/
theorem set_unknown_mode_deactivate_performed :
    (OrthoPerspectiveCamera.set worldBoundState "Nonexistent").err
        = some CamError.unknownMode ∧
      (OrthoPerspectiveCamera.set worldBoundState "Nonexistent").calls ≠ [] := by
  decide

/-- C2, amended: with a current mode `cur` and a requested id `m` that
differs from the current id and is absent from the registry, `set`
raises the unknown-mode error and leaves the state (in particular the
current-mode reference) unchanged, but the previously active mode has
already received its `set(false)` deactivation call; no activation call
is performed. -/
theorem set_unknown_mode_behavior (s : CameraState) (cur : Mode) (m : String)
    (h1 : s._mode = some cur) (h2 : cur.id ≠ m)
    (h3 : s.registry.find? (fun md => md.id == m) = none) :
    OrthoPerspectiveCamera.set s m
      = ⟨some CamError.unknownMode, s, [ModeCall.set cur.id false false]⟩ := by
  simp [OrthoPerspectiveCamera.set, h1, h2, h3]

/-- C2, witness: the amended behavior at the world-bound state with the
id "Nonexistent". -/
theorem set_unknown_mode_behavior_witness :
    OrthoPerspectiveCamera.set worldBoundState "Nonexistent"
      = ⟨some CamError.unknownMode, worldBoundState,
         [ModeCall.set "Orbit" false false]⟩ :=
  set_unknown_mode_behavior worldBoundState ⟨"Orbit"⟩ "Nonexistent" rfl
    (by decide) rfl

/-- C3, counterexample: on the empty mesh list (camera enabled), `fit`
is neither a no-op nor an error: the controller fit-to-sphere operation
is invoked (the result is not `none`). -/
theorem fit_empty_invokes_controller :
    fit initialState [] (3 / 2) ≠ none := by
  have hlt : minNum < maxNum := by norm_num [minNum, maxNum]
  simp [fit, initialState, foldBox, Box3.getSize, Box3.getCenter, Box3.isEmpty,
    hlt, not_lt.mpr hlt.le]

/-- C3, amended: on the empty mesh list with the camera enabled, `fit`
builds the degenerate running box (min all `MAX_VALUE`, max all
`MIN_VALUE`), which three.js treats as an empty box with size zero and
center at the origin, and invokes the controller fit-to-sphere with the
degenerate sphere of center (0, 0, 0) and radius 0 instead of no-opping
or erroring. -/
theorem fit_empty_degenerate_sphere (s : CameraState) (offset : ℚ)
    (h : s.enabled = true) :
    fit s [] offset = some ⟨⟨0, 0, 0⟩, 0⟩ := by
  have hlt : minNum < maxNum := by norm_num [minNum, maxNum]
  simp [fit, h, foldBox, Box3.getSize, Box3.getCenter, Box3.isEmpty, hlt,
    not_lt.mpr hlt.le]

/-- C3, witness: the degenerate sphere produced on the empty mesh list
from the enabled initial state with the default offset 1.5. -/
theorem fit_empty_degenerate_sphere_witness :
    fit initialState [] (3 / 2) = some ⟨⟨0, 0, 0⟩, 0⟩ :=
  fit_empty_degenerate_sphere initialState (3 / 2) rfl

/-- C4: the running maximum of the `fit` fold starts at
`Number.MIN_VALUE`, the smallest POSITIVE double, not at the most
negative one; for a mesh lying entirely below the origin the computed
box maximum is therefore `(MIN_VALUE, MIN_VALUE, MIN_VALUE)` and not the
component-wise maximum (-1, -1, -1) of the mesh maxima, and the sphere
passed to the controller differs from the one the claim derives (center
(-1.5, -1.5, -1.5), radius 2 at offset 2). -/
theorem fit_negative_box_min_value_bug :
    (foldBox [negMesh]).max = ⟨minNum, minNum, minNum⟩ ∧ (minNum : ℚ) ≠ -1 ∧
      fit initialState [negMesh] 2 ≠ some ⟨⟨-3 / 2, -3 / 2, -3 / 2⟩, 2⟩ := by
  have h1 : (-2 : ℚ) < maxNum := by norm_num [maxNum]
  have h2 : ¬ ((-1 : ℚ) > minNum) := by norm_num [minNum]
  have h3 : ¬ (minNum < (-2 : ℚ)) := by norm_num [minNum]
  refine ⟨?_, ?_, ?_⟩
  · simp [foldBox, negMesh, h1, h2]
  · norm_num [minNum]
  · simp [fit, initialState, foldBox, negMesh, h1, h2, Box3.isEmpty, h3,
      Box3.getSize, Box3.getCenter, Sphere.mk.injEq]
    intro h
    norm_num [minNum] at h

/-- C5, counterexample: after `setUserInput(false)` on the enabled
initial state, `fit` is not a no-op: the controller fit-to-sphere
operation is still invoked, because `setUserInput` only zeroes the
pointer-button bindings and never touches the `enabled` flag that the
`fit` guard reads. -/
theorem fit_after_setUserInput_false_still_fits :
    fit (setUserInput initialState false) [unitMesh] (3 / 2) ≠ none := by
  simp [fit, setUserInput, disableUserInput, initialState]

/-- C5, amended: `fit` returns immediately without a controller call
exactly when the inherited `enabled` flag of the component is false, and
`setUserInput(false)` leaves that flag unchanged, so disabling user
input via `setUserInput` does not make `fit` a no-op. -/
theorem fit_noop_only_when_enabled_false (s : CameraState)
    (h : s.enabled = false) (meshes : List Mesh) (offset : ℚ) :
    fit s meshes offset = none ∧ (setUserInput s false).enabled = s.enabled := by
  constructor
  · simp [fit, h]
  · rfl

/-- C5, witness: the amended behavior at a concrete disabled state. -/
theorem fit_noop_only_when_enabled_false_witness :
    fit disabledState [] 1 = none :=
  (fit_noop_only_when_enabled_false disabledState rfl [] 1).1

/-- C6: for every state, `setUserInput(false)` zeroes the four
pointer-button bindings after capturing them in the snapshot, a
subsequent `setUserInput(true)` restores exactly the captured values,
and on a state that has never captured a snapshot `setUserInput(true)`
is a no-op. -/
theorem setUserInput_roundtrip (s s2 : CameraState) (h : s2.snapshot = none) :
    ((setUserInput s false).mouseButtons = ⟨0, 0, 0, 0⟩ ∧
     (setUserInput s false).snapshot = some s.mouseButtons ∧
     (setUserInput (setUserInput s false) true).mouseButtons = s.mouseButtons) ∧
    setUserInput s2 true = s2 := by
  refine ⟨⟨rfl, rfl, rfl⟩, ?_⟩
  simp [setUserInput, enableUserInput, h]

/-- C6, witness: the round trip at the initial state with bindings
(1, 2, 4, 8), and the no-op of enabling with no prior capture. -/
theorem setUserInput_roundtrip_witness :
    ((setUserInput initialState false).mouseButtons = ⟨0, 0, 0, 0⟩ ∧
     (setUserInput initialState false).snapshot = some ⟨1, 2, 4, 8⟩ ∧
     (setUserInput (setUserInput initialState false) true).mouseButtons
       = ⟨1, 2, 4, 8⟩) ∧
    setUserInput initialState true = initialState :=
  setUserInput_roundtrip initialState initialState rfl

/-- C7: reading the `mode` getter on a camera whose `_mode` reference is
still null (no world-bind event has occurred) throws the
not-initialized error. -/
theorem mode_uninitialized_throws (s : CameraState) (h : s._mode = none) :
    mode s = Except.error CamError.notInitialized := by
  simp [mode, h]

/-- C7, witness: the getter error at the freshly constructed state with
its empty registry. -/
theorem mode_uninitialized_throws_witness :
    mode initialState = Except.error CamError.notInitialized :=
  mode_uninitialized_throws initialState rfl

/-- C8: a world-change event rebuilds the registry with exactly Orbit,
FirstPerson and Plan, makes Orbit the current mode, and activates it
with `preventTargetAdjustment: true`; a subsequent successful `set`
transition deactivates the old mode and activates the new one WITHOUT
the suppression option. -/
theorem worldChanged_rebuilds_and_activates_orbit (s s2 : CameraState)
    (cur next : Mode) (m : String)
    (h1 : s2._mode = some cur) (h2 : cur.id ≠ m)
    (h3 : s2.registry.find? (fun md => md.id == m) = some next) :
    (onWorldChanged s).1.registry
        = [⟨"Orbit"⟩, ⟨"FirstPerson"⟩, ⟨"Plan"⟩] ∧
      (onWorldChanged s).1._mode = some ⟨"Orbit"⟩ ∧
      (onWorldChanged s).2 = [ModeCall.set "Orbit" true true] ∧
      (OrthoPerspectiveCamera.set s2 m).calls
        = [ModeCall.set cur.id false false, ModeCall.set next.id true false] := by
  refine ⟨rfl, rfl, rfl, ?_⟩
  simp [OrthoPerspectiveCamera.set, h1, h2, h3]

/-- C8, witness: the world-change event from the initial state, followed
by a transition from Orbit to Plan. -/
theorem worldChanged_rebuilds_and_activates_orbit_witness :
    (onWorldChanged initialState).1.registry
        = [⟨"Orbit"⟩, ⟨"FirstPerson"⟩, ⟨"Plan"⟩] ∧
      (onWorldChanged initialState).1._mode = some ⟨"Orbit"⟩ ∧
      (onWorldChanged initialState).2 = [ModeCall.set "Orbit" true true] ∧
      (OrthoPerspectiveCamera.set worldBoundState "Plan").calls
        = [ModeCall.set "Orbit" false false, ModeCall.set "Plan" true false] :=
  worldChanged_rebuilds_and_activates_orbit initialState worldBoundState
    ⟨"Orbit"⟩ ⟨"Plan"⟩ "Plan" rfl (by decide) rfl

/-- C9: calling `set` on a camera whose `_mode` reference is still null
throws the not-initialized error (the getter inside the first guard
throws before anything else can happen), for every requested id, and
leaves the state unchanged with no `NavigationMode.set` call
performed. -/
theorem set_uninitialized_throws (s : CameraState) (m : String)
    (h : s._mode = none) :
    OrthoPerspectiveCamera.set s m
      = ⟨some CamError.notInitialized, s, []⟩ := by
  simp [OrthoPerspectiveCamera.set, h]

/-- C9, witness: the not-initialized error on the fresh state with an id
that is also absent from the (empty) registry. -/
theorem set_uninitialized_throws_witness :
    OrthoPerspectiveCamera.set initialState "Nonexistent"
      = ⟨some CamError.notInitialized, initialState, []⟩ :=
  set_uninitialized_throws initialState "Nonexistent" rfl

/-- C10: disabling user input twice in a row overwrites the snapshot
with the already-zeroed bindings, so a subsequent enable restores all
four bindings to 0, not to the values in effect before the first
disable. -/
theorem double_disable_zeroes_snapshot (s : CameraState) :
    (setUserInput (setUserInput (setUserInput s false) false) true).mouseButtons
        = ⟨0, 0, 0, 0⟩ ∧
      (setUserInput (setUserInput s false) false).snapshot = some ⟨0, 0, 0, 0⟩ :=
  ⟨rfl, rfl⟩

end EngineComponents
